import Mathlib

/-!
Shallow embedding of the discovery property-mapping code of cp-ansible
(`discovery/service/zookeeper.py`, `discovery/service/control_center.py`,
`discovery/utils/utils.py`) together with theorems settling the frozen claims.

Python strings are modelled as `String` (or `List Char` where character-level
reasoning is needed), Python dicts as insertion-ordered association lists with
in-place update, Python sets as duplicate-free lists, and raising code returns
`Except PyError`.  External collaborators whose code is not under `src/`
(remote collector, alias resolver, inventory manager) are modelled from the
spec, as marked in their doc comments.
-/

/- ## Python string primitives -/

/-- Python `str.strip` whitespace: space, tab, newline, carriage return,
vertical tab (11) and form feed (12). -/
def pyIsSpace (c : Char) : Bool :=
  c = ' ' || c = '\t' || c = '\n' || c = '\r' || c.toNat = 11 || c.toNat = 12

def dropWhileRight (p : Char → Bool) (l : List Char) : List Char :=
  (l.reverse.dropWhile p).reverse

/-- Strip characters satisfying `p` from both ends (Python `str.strip(chars)`). -/
def stripWith (p : Char → Bool) (l : List Char) : List Char :=
  dropWhileRight p (l.dropWhile p)

/-- Python `str.strip()` (no argument): strip whitespace from both ends. -/
def pyStrip (l : List Char) : List Char := stripWith pyIsSpace l

/-- Python `str.strip('"')`: strip all leading and trailing double quotes. -/
def stripQuote (l : List Char) : List Char := stripWith (fun c => c = '"') l

/-- Python `str.startswith(c)` for a one-character argument. -/
def startsWithChar (c : Char) : List Char → Bool
  | [] => false
  | x :: _ => x = c

/-- Python `str.split(sep)` for a one-character separator: split on every
occurrence, keeping empty pieces; the result is never empty. -/
def splitOnChar (c : Char) : List Char → List (List Char)
  | [] => [[]]
  | x :: xs =>
    match splitOnChar c xs with
    | [] => [[]]
    | h :: t => if x = c then [] :: h :: t else (x :: h) :: t

/-- Python `sep.join(pieces)` for a one-character separator. -/
def joinSep (c : Char) : List (List Char) → List Char
  | [] => []
  | [x] => x
  | x :: y :: t => x ++ c :: joinSep c (y :: t)

/-- Whether `pre` is a prefix of `l` (character comparison). -/
def startsWithSeq : List Char → List Char → Bool
  | [], _ => true
  | _ :: _, [] => false
  | a :: as, b :: bs => a == b && startsWithSeq as bs

/-- Split at the first occurrence of the (non-empty) separator `sep`, returning
the part before it and the part after it, or `none` when `sep` does not occur.
Models Python `str.find(sep)`-based dissection. -/
def splitFirstSeq (sep : List Char) : List Char → Option (List Char × List Char)
  | [] => Option.none
  | x :: xs =>
    if startsWithSeq sep (x :: xs) then some ([], (x :: xs).drop sep.length)
    else
      match splitFirstSeq sep xs with
      | some (a, b) => some (x :: a, b)
      | Option.none => Option.none

/-- Python `s.find(sub) >= 0`: whether `sub` occurs in `s` as a substring. -/
def pyContains (s sub : String) : Bool := (splitFirstSeq sub.data s.data).isSome

def digitVal (c : Char) : Option Nat :=
  if c.isDigit then some (c.toNat - 48) else Option.none

/-- Parse a non-empty all-digit character list as a natural number. -/
def digitsToNat (l : List Char) : Option Nat :=
  if l.isEmpty then Option.none
  else
    l.foldl
      (fun acc c =>
        match acc, digitVal c with
        | some n, some d => some (n * 10 + d)
        | _, _ => Option.none)
      (some 0)

/- ## Python dict and set -/

/-- Python dict assignment `d[k] = v`: update the value in place when the key
is present (association lists built this way have unique keys), otherwise
append the new pair at the end. -/
def dictSet {α β : Type} [DecidableEq α] : List (α × β) → α → β → List (α × β)
  | [], k, v => [(k, v)]
  | p :: t, k, v => if p.1 = k then (k, v) :: t else p :: dictSet t k v

/-- Python `d.get(k)`: the value at the first matching key, if any. -/
def dictGet? {α β : Type} [DecidableEq α] : List (α × β) → α → Option β
  | [], _ => Option.none
  | p :: t, k => if p.1 = k then some p.2 else dictGet? t k

/-- Python `set.add`: membership-tested insertion (modelled on a
duplicate-free list, so that adds are deterministic). -/
def setAdd (s : List String) (k : String) : List String :=
  if k ∈ s then s else s ++ [k]

/- ## `load_properties_to_dict` (discovery/utils/utils.py) -/

/-- The per-line body of the `for line in content` loop of
`load_properties_to_dict`: strip the line; skip it when empty or when its
stripped text starts with the comment character; otherwise split it on the
separator, take the first piece (stripped) as key and the rejoined remaining
pieces (stripped of whitespace and then of double quotes) as value, and assign
into the dict. -/
def procLine (sep comment_char : Char) (props : List (List Char × List Char))
    (line : List Char) : List (List Char × List Char) :=
  let l := pyStrip line
  if !l.isEmpty && !startsWithChar comment_char l then
    let key_value := splitOnChar sep l
    let key := pyStrip (key_value.headD [])
    let value := stripQuote (pyStrip (joinSep sep (key_value.drop 1)))
    dictSet props key value
  else
    props

/-- `load_properties_to_dict(content, sep='=', comment_char='#')`: split the
content on newlines and fold every line through `procLine`, starting from the
empty dict. -/
def load_properties_to_dict (content : List Char) (sep : Char := '=')
    (comment_char : Char := '#') : List (List Char × List Char) :=
  (splitOnChar '\n' content).foldl (procLine sep comment_char) []

/-- Key of a processed line as the claim words it: the text before the first
separator, stripped. -/
def keyOfLine (sep : Char) (l : List Char) : List Char :=
  pyStrip (l.takeWhile (fun c => !decide (c = sep)))

/-- Value of a processed line as the claim words it: the remainder after the
first separator, stripped of whitespace and surrounding double quotes. -/
def valueOfLine (sep : Char) (l : List Char) : List Char :=
  stripQuote (pyStrip ((l.dropWhile (fun c => !decide (c = sep))).drop 1))

/-- A stripped line is processed (not ignored) iff it is non-empty and does
not start with the comment character. -/
def eligibleLine (comment_char : Char) (l : List Char) : Bool :=
  !l.isEmpty && !startsWithChar comment_char l

/-- The (key, value) entries of the processed lines of `content`, in order. -/
def claimedEntries (content : List Char) (sep comment_char : Char) :
    List (List Char × List Char) :=
  ((((splitOnChar '\n' content).map pyStrip).filter (eligibleLine comment_char)).map
    (fun l => (keyOfLine sep l, valueOfLine sep l)))

/- ## Values, errors, raw and normalized properties -/

/-- Python exceptions the embedded code can raise. -/
inductive PyError where
  | typeError
  | attributeError
  | indexError
  | valueError
deriving DecidableEq, Repr

/-- A normalized (inventory-side) property value: the rule code stores
strings, ints, booleans, and Python `None`. -/
inductive PropValue where
  | str : String → PropValue
  | int : Int → PropValue
  | bool : Bool → PropValue
  | null : PropValue
deriving DecidableEq, Repr

/-- A raw on-host property map (one configuration variant). -/
abbrev RawProps := List (String × String)

/-- A normalized property map. -/
abbrev Props := List (String × PropValue)

/-- The value a Python dict assignment stores for a `d.get(k)` result: the
string when present, `None` when absent. -/
def toVal : Option String → PropValue
  | some s => PropValue.str s
  | Option.none => PropValue.null

/-- Python `int(s)`: strip whitespace, optional sign, decimal digits;
raises `ValueError` otherwise.  (Underscore digit grouping is not used by the
discovery code and is not modelled.) -/
def pyInt (s : String) : Except PyError Int :=
  match pyStrip s.data with
  | '-' :: rest =>
    match digitsToNat rest with
    | some n => Except.ok (-(n : Int))
    | Option.none => Except.error PyError.valueError
  | '+' :: rest =>
    match digitsToNat rest with
    | some n => Except.ok (n : Int)
    | Option.none => Except.error PyError.valueError
  | t =>
    match digitsToNat t with
    | some n => Except.ok (n : Int)
    | Option.none => Except.error PyError.valueError

/-- Python `int(x)` where `x` came from `dict.get`: `int(None)` raises
`TypeError`. -/
def pyIntOpt : Option String → Except PyError Int
  | some s => pyInt s
  | Option.none => Except.error PyError.typeError

/- ## `urlparse` (Python standard library, external to the repository) -/

structure ParsedUri where
  scheme : String
  hostname : Option String
  port : Option Int
deriving DecidableEq, Repr

/-- Modelled from the Python standard library `urllib.parse.urlparse`,
restricted to the `scheme://host[:port][/path]` shapes the discovery code
feeds it: the scheme is the (lowercased) text before `://`, the netloc is the
text up to the next `/`, the hostname is the (lowercased) netloc up to the
last `:`, and the port is the decimal number after that colon when present. -/
def urlparse (url : String) : ParsedUri :=
  match splitFirstSeq [':', '/', '/'] url.data with
  | Option.none => { scheme := "", hostname := Option.none, port := Option.none }
  | some (schemeChars, rest) =>
    let netloc := rest.takeWhile (fun c => !decide (c = '/'))
    let scheme := String.mk (schemeChars.map Char.toLower)
    let hostPort := splitOnChar ':' netloc
    if hostPort.length ≤ 1 then
      { scheme := scheme,
        hostname := if netloc.isEmpty then Option.none
          else some (String.mk (netloc.map Char.toLower)),
        port := Option.none }
    else
      let hostChars := joinSep ':' hostPort.dropLast
      let portChars := hostPort.getLastD []
      { scheme := scheme,
        hostname := if hostChars.isEmpty then Option.none
          else some (String.mk (hostChars.map Char.toLower)),
        port := (digitsToNat portChars).map (fun n => (n : Int)) }

/- ## Inventory model -/

/-- Modelled from the spec: the in-memory normalized inventory
(`CPInventoryManager`, whose module is not under `src/`): a mapping from group
name to a flat mapping of normalized property name to value, plus a per-host
override layer keyed by (group, custom sub-namespace, host) used for custom
properties. -/
structure CPInventoryManager where
  groups : List (String × Props)
  hostOverrides : List ((String × String × String) × RawProps)
deriving DecidableEq, Repr

/-- Shallow union of an update into a property map, last write wins per key. -/
def mergeProps (base upd : Props) : Props :=
  upd.foldl (fun d p => dictSet d p.1 p.2) base

/-- Modelled from the spec: `update_inventory(inventory, (scope, props))` —
a broadcast scope `"all"` is expanded and unioned into every existing group;
a named scope is unioned into that group, creating it when absent; merging is
a shallow union with last write wins per key. -/
def update_inventory (inv : CPInventoryManager) (data : String × Props) :
    CPInventoryManager :=
  let scope := data.1
  let props := data.2
  if scope = "all" then
    { inv with groups := inv.groups.map (fun g => (g.1, mergeProps g.2 props)) }
  else if inv.groups.any (fun g => decide (g.1 = scope)) then
    { inv with groups :=
        inv.groups.map (fun g => if g.1 = scope then (g.1, mergeProps g.2 props) else g) }
  else
    { inv with groups := inv.groups ++ [(scope, mergeProps [] props)] }

/-- Modelled from the spec: the canonical/default variant name (`DEFAULT_KEY`
from the constants module, which is not under `src/`); its concrete value is
irrelevant to the claims. -/
def DEFAULT_KEY : String := "DEFAULT"

/-- Modelled from the spec: the inventory group of the Kafka broker service
(`ConfluentServices.KAFKA_BROKER.value.get('group')`, constants module not
under `src/`). -/
def kafka_broker_group : String := "kafka_broker"

/-- Modelled from the spec: `AbstractPropertyBuilder.build_custom_properties`
(module not under `src/`) — for every host, take that host's canonical raw
variant, drop the keys in the mapped set and the skip set, and record the
remaining raw pairs as that host's custom-property override for the service's
group under the custom sub-namespace name. -/
def build_custom_properties (inv : CPInventoryManager) (group custom_name : String)
    (host_service_properties : List (String × RawProps))
    (skip_properties mapped_properties : List String) : CPInventoryManager :=
  { inv with hostOverrides :=
      (host_service_properties.foldl
        (fun ho hp =>
          dictSet ho (group, custom_name, hp.1)
            (hp.2.filter
              (fun p => !mapped_properties.contains p.1 && !skip_properties.contains p.1)))
        inv.hostOverrides) }

/- ## External collaborators (spec-modelled inputs of one builder run) -/

/-- Modelled from the spec: the results the external collaborators return for
one builder run — the hosts found running the service (`get_service_host`),
the per-host table of named raw property variants (`get_property_mappings`),
the daemon user/group response (`get_service_user_group`), the derived JVM
argument string (`get_jvm_arguments`), the keystore alias resolver
(`get_keystore_alias_names`, as a function of keystore password and path), and
the static `skip_properties` configuration. -/
structure ExternalCtx where
  hosts : List String
  propertyTable : List (String × List (String × RawProps))
  userGroupResponse : String × Props
  jvmArgs : String
  resolver : Option String → Option String → List String
  skipProperties : List String

/- ## Zookeeper extraction rules (discovery/service/zookeeper.py) -/

/-- `_build_service_port_properties`: mark `clientPort` mapped; when present,
emit `zookeeper_client_port` as an int broadcast to all groups, else emit
nothing. -/
def zk_build_service_port_properties (service_prop : RawProps) (mapped : List String) :
    Except PyError ((String × Props) × List String) :=
  let key := "clientPort"
  let mapped := setAdd mapped key
  match dictGet? service_prop key with
  | some v =>
    match pyInt v with
    | Except.ok n => Except.ok (("all", [("zookeeper_client_port", PropValue.int n)]), mapped)
    | Except.error e => Except.error e
  | Option.none => Except.ok (("all", []), mapped)

def zkSslPropertyList : List String :=
  ["secureClientPort", "ssl.keyStore.location", "ssl.keyStore.password",
   "ssl.trustStore.location", "ssl.trustStore.password"]

/-- `_build_ssl_properties`: mark the five SSL keys mapped; SSL is considered
enabled iff `bool(get('secureClientPort', False))`, i.e. iff the raw value is a
non-empty string; when disabled return the broadcast scope with no properties,
otherwise emit the keystore/truststore material scoped to `zookeeper`,
initialise `ssl_truststore_ca_cert_alias` to the empty-string sentinel, and
take the first alias the resolver returns for each store (omitting
`ssl_keystore_alias` when the keystore alias list is empty). -/
def zk_build_ssl_properties (resolver : Option String → Option String → List String)
    (service_prop : RawProps) (mapped : List String) :
    Except PyError ((String × Props) × List String) :=
  let mapped := zkSslPropertyList.foldl setAdd mapped
  let zookeeper_ssl_enabled :=
    match dictGet? service_prop "secureClientPort" with
    | some s => !(s = "")
    | Option.none => false
  if zookeeper_ssl_enabled = false then
    Except.ok (("all", []), mapped)
  else
    let keystore_path := dictGet? service_prop "ssl.keyStore.location"
    let keystore_password := dictGet? service_prop "ssl.keyStore.password"
    let truststore_path := dictGet? service_prop "ssl.trustStore.location"
    let truststore_password := dictGet? service_prop "ssl.trustStore.password"
    let property_dict : Props :=
      [("ssl_enabled", PropValue.bool true),
       ("zookeeper_keystore_path", toVal keystore_path),
       ("ssl_keystore_store_password", toVal keystore_password),
       ("zookeeper_truststore_path", toVal truststore_path),
       ("ssl_truststore_password", toVal truststore_password),
       ("ssl_provided_keystore_and_truststore", PropValue.bool true),
       ("ssl_provided_keystore_and_truststore_remote_src", PropValue.bool true),
       ("ssl_truststore_ca_cert_alias", PropValue.str "")]
    let keystore_aliases := resolver keystore_password keystore_path
    let truststore_aliases := resolver truststore_password truststore_path
    let property_dict :=
      match keystore_aliases with
      | [] => property_dict
      | a :: _ => dictSet property_dict "ssl_keystore_alias" (PropValue.str a)
    let property_dict :=
      match truststore_aliases with
      | [] => property_dict
      | a :: _ => dictSet property_dict "ssl_truststore_ca_cert_alias" (PropValue.str a)
    Except.ok (("zookeeper", property_dict), mapped)

/-- `_build_mtls_properties`: read `ssl.clientAuth` and emit
`ssl_mutual_auth_enabled` scoped to `zookeeper` when it equals `'need'`,
else emit nothing; the source never adds the read key to
`mapped_service_properties`. -/
def zk_build_mtls_properties (service_prop : RawProps) (mapped : List String) :
    Except PyError ((String × Props) × List String) :=
  if dictGet? service_prop "ssl.clientAuth" = some "need" then
    Except.ok (("zookeeper", [("ssl_mutual_auth_enabled", PropValue.bool true)]), mapped)
  else
    Except.ok (("all", []), mapped)

/- ## Control-center extraction rules (discovery/service/control_center.py) -/

/-- `_build_service_protocol_port`: mark the listeners key mapped, parse the
listener URI and broadcast its scheme, hostname and port.  When the key is
absent the source hands `None` to `urlparse`, which raises. -/
def cc_build_service_protocol_port (service_prop : RawProps) (mapped : List String) :
    Except PyError ((String × Props) × List String) :=
  let key := "confluent.controlcenter.rest.listeners"
  let mapped := setAdd mapped key
  match dictGet? service_prop key with
  | Option.none => Except.error PyError.attributeError
  | some url =>
    let parsed_uri := urlparse url
    Except.ok (("all",
      [("control_center_http_protocol", PropValue.str parsed_uri.scheme),
       ("control_center_listener_hostname", toVal parsed_uri.hostname),
       ("control_center_port",
        match parsed_uri.port with
        | some n => PropValue.int n
        | Option.none => PropValue.null)]), mapped)

/-- `_build_control_center_internal_replication_property`: mark the four
replication keys mapped, then emit the int of the first key's value; when that
key is absent, `int(None)` raises `TypeError`. -/
def cc_build_control_center_internal_replication_property (service_prop : RawProps)
    (mapped : List String) : Except PyError ((String × Props) × List String) :=
  let key1 := "confluent.controlcenter.command.topic.replication"
  let key2 := "confluent.controlcenter.internal.topics.replication"
  let key3 := "confluent.metrics.topic.replication"
  let key4 := "confluent.monitoring.interceptor.topic.replication"
  let mapped := setAdd (setAdd (setAdd (setAdd mapped key1) key2) key3) key4
  match pyIntOpt (dictGet? service_prop key1) with
  | Except.ok n =>
    Except.ok (("all",
      [("control_center_default_internal_replication_factor", PropValue.int n)]), mapped)
  | Except.error e => Except.error e

def ccTlsPropertyList : List String :=
  ["confluent.controlcenter.rest.ssl.truststore.location",
   "confluent.controlcenter.rest.ssl.truststore.password",
   "confluent.controlcenter.rest.ssl.keystore.location",
   "confluent.controlcenter.rest.ssl.keystore.password",
   "confluent.controlcenter.rest.ssl.key.password"]

/-- `_build_tls_properties`: read the listeners value (raising
`AttributeError` on `None.find` when it is absent); when it does not contain
`'https'` return the broadcast scope with no properties (leaving the mapped
set as it was); otherwise mark the five SSL keys mapped, emit the TLS
material scoped to `control_center`, initialise `ssl_truststore_ca_cert_alias`
to the empty-string sentinel, and take the first alias the resolver returns
for each store (omitting `ssl_keystore_alias` when the keystore list is
empty). -/
def cc_build_tls_properties (resolver : Option String → Option String → List String)
    (service_prop : RawProps) (mapped : List String) :
    Except PyError ((String × Props) × List String) :=
  match dictGet? service_prop "confluent.controlcenter.rest.listeners" with
  | Option.none => Except.error PyError.attributeError
  | some control_center_listener =>
    if !pyContains control_center_listener "https" then
      Except.ok (("all", []), mapped)
    else
      let mapped := ccTlsPropertyList.foldl setAdd mapped
      let truststore_path :=
        dictGet? service_prop "confluent.controlcenter.rest.ssl.truststore.location"
      let truststore_password :=
        dictGet? service_prop "confluent.controlcenter.rest.ssl.truststore.password"
      let keystore_path :=
        dictGet? service_prop "confluent.controlcenter.rest.ssl.keystore.location"
      let keystore_password :=
        dictGet? service_prop "confluent.controlcenter.rest.ssl.keystore.password"
      let key_password :=
        dictGet? service_prop "confluent.controlcenter.rest.ssl.key.password"
      let property_dict : Props :=
        [("ssl_enabled", PropValue.bool true),
         ("ssl_provided_keystore_and_truststore", PropValue.bool true),
         ("ssl_provided_keystore_and_truststore_remote_src", PropValue.bool true),
         ("control_center_truststore_path", toVal truststore_path),
         ("ssl_truststore_password", toVal truststore_password),
         ("control_center_keystore_path", toVal keystore_path),
         ("ssl_keystore_store_password", toVal keystore_password),
         ("ssl_keystore_key_password", toVal key_password),
         ("ssl_truststore_ca_cert_alias", PropValue.str "")]
      let keystore_aliases := resolver keystore_password keystore_path
      let truststore_aliases := resolver truststore_password truststore_path
      let property_dict :=
        match keystore_aliases with
        | [] => property_dict
        | a :: _ => dictSet property_dict "ssl_keystore_alias" (PropValue.str a)
      let property_dict :=
        match truststore_aliases with
        | [] => property_dict
        | a :: _ => dictSet property_dict "ssl_truststore_ca_cert_alias" (PropValue.str a)
      Except.ok (("control_center", property_dict), mapped)

/-- `_build_authentication_property`: mark the authentication-method key
mapped; emit `control_center_authentication_type = 'basic'` broadcast when the
raw value equals `'BASIC'`, else emit nothing. -/
def cc_build_authentication_property (service_prop : RawProps) (mapped : List String) :
    Except PyError ((String × Props) × List String) :=
  let key := "confluent.controlcenter.rest.authentication.method"
  let mapped := setAdd mapped key
  if dictGet? service_prop key = some "BASIC" then
    Except.ok (("all", [("control_center_authentication_type", PropValue.str "basic")]), mapped)
  else
    Except.ok (("all", []), mapped)

/-- `_build_mtls_property`: a cross-service rule reading the inventory, not
the raw properties — when the broker group exists and carries
`ssl_mutual_auth_enabled`, emit that flag scoped to `control_center`, else
emit nothing. -/
def cc_build_mtls_property (inv : CPInventoryManager) (_service_prop : RawProps)
    (mapped : List String) : Except PyError ((String × Props) × List String) :=
  match dictGet? inv.groups kafka_broker_group with
  | some gvars =>
    if (dictGet? gvars "ssl_mutual_auth_enabled").isSome then
      Except.ok (("control_center", [("ssl_mutual_auth_enabled", PropValue.bool true)]), mapped)
    else
      Except.ok (("all", []), mapped)
  | Option.none => Except.ok (("all", []), mapped)

/-- `_build_rbac_properties`: when the governing authentication-method key is
absent, emit the explicit negative default `{rbac_enabled: false}` scoped to
`control_center` (without touching the mapped set); otherwise mark the three
RBAC keys mapped and emit the positive configuration. -/
def cc_build_rbac_properties (service_prop : RawProps) (mapped : List String) :
    Except PyError ((String × Props) × List String) :=
  let key1 := "confluent.controlcenter.rest.authentication.method"
  match dictGet? service_prop key1 with
  | Option.none =>
    Except.ok (("control_center", [("rbac_enabled", PropValue.bool false)]), mapped)
  | some _ =>
    let key2 := "public.key.path"
    let key3 := "confluent.metadata.bootstrap.server.urls"
    let mapped := setAdd (setAdd (setAdd mapped key1) key2) key3
    Except.ok (("control_center",
      [("rbac_enabled", PropValue.bool true),
       ("rbac_enabled_public_pem_path", toVal (dictGet? service_prop key2))]), mapped)

/-- `_build_ldap_properties`: mark the metadata user-info key mapped; when
present, split its value on `':'` and emit user (piece 0) and password
(piece 1, raising `IndexError` when there is no colon); else emit nothing. -/
def cc_build_ldap_properties (service_prop : RawProps) (mapped : List String) :
    Except PyError ((String × Props) × List String) :=
  let key := "confluent.metadata.basic.auth.user.info"
  let mapped := setAdd mapped key
  match dictGet? service_prop key with
  | Option.none => Except.ok (("all", []), mapped)
  | some metadata_user_info =>
    let pieces := splitOnChar ':' metadata_user_info.data
    match pieces.get? 1 with
    | Option.none => Except.error PyError.indexError
    | some piece1 =>
      Except.ok (("all",
        [("control_center_ldap_user", PropValue.str (String.mk (pieces.headD []))),
         ("control_center_ldap_password", PropValue.str (String.mk piece1))]), mapped)

/- ## Rule chains and build_properties -/

/-- `__build_service_properties` of the zookeeper builder: run the `_build*`
rules in declaration order (`_build_service_port_properties`,
`_build_ssl_properties`, `_build_mtls_properties`), starting from the empty
mapped set, merging each result into the inventory as it is produced. -/
def zkRunRules (resolver : Option String → Option String → List String)
    (inv : CPInventoryManager) (service_prop : RawProps) :
    Except PyError (CPInventoryManager × List String) :=
  match zk_build_service_port_properties service_prop [] with
  | Except.error e => Except.error e
  | Except.ok (r1, m1) =>
    let inv := update_inventory inv r1
    match zk_build_ssl_properties resolver service_prop m1 with
    | Except.error e => Except.error e
    | Except.ok (r2, m2) =>
      let inv := update_inventory inv r2
      match zk_build_mtls_properties service_prop m2 with
      | Except.error e => Except.error e
      | Except.ok (r3, m3) => Except.ok (update_inventory inv r3, m3)

/-- `__build_service_properties` of the control-center builder: run the
`_build*` rules in declaration order (`_build_service_protocol_port`,
`_build_control_center_internal_replication_property`,
`_build_tls_properties`, `_build_authentication_property`,
`_build_mtls_property`, `_build_rbac_properties`, `_build_ldap_properties`),
starting from the empty mapped set and merging each result into the inventory
as it is produced; the cross-service mTLS rule reads the inventory as updated
by the earlier rules of this run. -/
def ccRunRules (resolver : Option String → Option String → List String)
    (inv : CPInventoryManager) (service_prop : RawProps) :
    Except PyError (CPInventoryManager × List String) :=
  match cc_build_service_protocol_port service_prop [] with
  | Except.error e => Except.error e
  | Except.ok (r1, m1) =>
    let inv := update_inventory inv r1
    match cc_build_control_center_internal_replication_property service_prop m1 with
    | Except.error e => Except.error e
    | Except.ok (r2, m2) =>
      let inv := update_inventory inv r2
      match cc_build_tls_properties resolver service_prop m2 with
      | Except.error e => Except.error e
      | Except.ok (r3, m3) =>
        let inv := update_inventory inv r3
        match cc_build_authentication_property service_prop m3 with
        | Except.error e => Except.error e
        | Except.ok (r4, m4) =>
          let inv := update_inventory inv r4
          match cc_build_mtls_property inv service_prop m4 with
          | Except.error e => Except.error e
          | Except.ok (r5, m5) =>
            let inv := update_inventory inv r5
            match cc_build_rbac_properties service_prop m5 with
            | Except.error e => Except.error e
            | Except.ok (r6, m6) =>
              let inv := update_inventory inv r6
              match cc_build_ldap_properties service_prop m6 with
              | Except.error e => Except.error e
              | Except.ok (r7, m7) => Except.ok (update_inventory inv r7, m7)

/-- The zookeeper `__build_custom_properties` (post-merge branch of the
source, which contains unresolved conflict markers at this method): per-host
canonical variants, skip set from the static configuration, custom group name
`zookeeper_custom_properties`. -/
def zk_custom_properties (ctx : ExternalCtx) (inv : CPInventoryManager)
    (mapped : List String) : CPInventoryManager :=
  build_custom_properties inv "zookeeper" "zookeeper_custom_properties"
    (ctx.propertyTable.map (fun hp => (hp.1, (dictGet? hp.2 DEFAULT_KEY).getD [])))
    ctx.skipProperties mapped

/-- The control-center `__build_custom_properties`. -/
def cc_custom_properties (ctx : ExternalCtx) (inv : CPInventoryManager)
    (mapped : List String) : CPInventoryManager :=
  build_custom_properties inv "control_center" "control_center_custom_properties"
    (ctx.propertyTable.map (fun hp => (hp.1, (dictGet? hp.2 DEFAULT_KEY).getD [])))
    ctx.skipProperties mapped

/-- `ZookeeperServicePropertyBaseBuilder.build_properties`: when
`get_service_host` returns no hosts the source only logs the error and does
NOT return, so execution reaches `host_service_properties.get(hosts[0])` and
`hosts[0]` raises `IndexError` on the empty list.  Otherwise: daemon
user/group update, the rule chain, custom properties, runtime (JVM) property.
(When the canonical host or variant is missing from the collected table the
subsequent `.get` on `None` raises `AttributeError`.) -/
def zkBuildProperties (ctx : ExternalCtx) (inv : CPInventoryManager) :
    Except PyError CPInventoryManager :=
  match ctx.hosts with
  | [] => Except.error PyError.indexError
  | host0 :: _ =>
    match dictGet? ctx.propertyTable host0 with
    | Option.none => Except.error PyError.attributeError
    | some variants =>
      match dictGet? variants DEFAULT_KEY with
      | Option.none => Except.error PyError.attributeError
      | some service_properties =>
        let inv := update_inventory inv ctx.userGroupResponse
        match zkRunRules ctx.resolver inv service_properties with
        | Except.error e => Except.error e
        | Except.ok (inv, mapped) =>
          let inv := zk_custom_properties ctx inv mapped
          Except.ok (update_inventory inv ("all",
            [("zookeeper_custom_java_args", PropValue.str ctx.jvmArgs)]))

/-- `ControlCenterServicePropertyBaseBuilder.build_properties`: when
`get_service_host` returns no hosts the source logs the error AND returns, so
the builder contributes nothing and the inventory is unchanged.  Otherwise the
same phases as the zookeeper builder, with the control-center rule chain. -/
def ccBuildProperties (ctx : ExternalCtx) (inv : CPInventoryManager) :
    Except PyError CPInventoryManager :=
  match ctx.hosts with
  | [] => Except.ok inv
  | host0 :: _ =>
    match dictGet? ctx.propertyTable host0 with
    | Option.none => Except.error PyError.attributeError
    | some variants =>
      match dictGet? variants DEFAULT_KEY with
      | Option.none => Except.error PyError.attributeError
      | some service_properties =>
        let inv := update_inventory inv ctx.userGroupResponse
        match ccRunRules ctx.resolver inv service_properties with
        | Except.error e => Except.error e
        | Except.ok (inv, mapped) =>
          let inv := cc_custom_properties ctx inv mapped
          Except.ok (update_inventory inv ("all",
            [("control_center_custom_java_args", PropValue.str ctx.jvmArgs)]))

/- ## Version-specific builder subclasses -/

/-- A version-specific zookeeper builder class: a Python subclass may override
`build_properties`; a `pass` body (no override) inherits the base method. -/
structure ZkBuilderClass where
  buildOverride : Option (ExternalCtx → CPInventoryManager → Except PyError CPInventoryManager)

/-- Python method resolution: the override when declared, else the inherited
base implementation. -/
def ZkBuilderClass.build_properties (c : ZkBuilderClass) :
    ExternalCtx → CPInventoryManager → Except PyError CPInventoryManager :=
  c.buildOverride.getD zkBuildProperties

/-- A version-specific control-center builder class. -/
structure CcBuilderClass where
  buildOverride : Option (ExternalCtx → CPInventoryManager → Except PyError CPInventoryManager)

def CcBuilderClass.build_properties (c : CcBuilderClass) :
    ExternalCtx → CPInventoryManager → Except PyError CPInventoryManager :=
  c.buildOverride.getD ccBuildProperties

def ZookeeperServicePropertyBaseBuilder60 : ZkBuilderClass := ⟨Option.none⟩

def ZookeeperServicePropertyBaseBuilder61 : ZkBuilderClass := ⟨Option.none⟩

def ZookeeperServicePropertyBaseBuilder62 : ZkBuilderClass := ⟨Option.none⟩

def ZookeeperServicePropertyBaseBuilder70 : ZkBuilderClass := ⟨Option.none⟩

def ZookeeperServicePropertyBaseBuilder71 : ZkBuilderClass := ⟨Option.none⟩

def ZookeeperServicePropertyBaseBuilder72 : ZkBuilderClass := ⟨Option.none⟩

def ControlCenterServicePropertyBaseBuilder60 : CcBuilderClass := ⟨Option.none⟩

def ControlCenterServicePropertyBaseBuilder61 : CcBuilderClass := ⟨Option.none⟩

def ControlCenterServicePropertyBaseBuilder62 : CcBuilderClass := ⟨Option.none⟩

def ControlCenterServicePropertyBaseBuilder70 : CcBuilderClass := ⟨Option.none⟩

def ControlCenterServicePropertyBaseBuilder71 : CcBuilderClass := ⟨Option.none⟩

def ControlCenterServicePropertyBaseBuilder72 : CcBuilderClass := ⟨Option.none⟩

/- ## Argument validation (discovery/utils/utils.py, Arguments.__validate_variables) -/

/-- The test `isinstance(version, int)` from `Arguments.__validate_variables`:
`version` ranges over the elements of `from_version.split('.')`, which are
always of Python type `str`, never `int`, so the source's test evaluates to
`False` for every element. -/
def isinstance_int (_component : List Char) : Bool := false

/-- The `from_version` portion of `Arguments.__validate_variables`: a falsy
value (absent or empty) is left alone; a value with fewer than two or more
than three dot-separated components is nulled out; otherwise the loop nulls
the value whenever a component fails `isinstance(version, int)`. -/
def validate_from_version (from_version : Option String) : Option String :=
  match from_version with
  | Option.none => Option.none
  | some fv =>
    if fv = "" then some fv
    else
      let versions := splitOnChar '.' fv.data
      if versions.isEmpty || versions.length > 3 || versions.length < 2 then
        Option.none
      else
        versions.foldl
          (fun acc version => if isinstance_int version then acc else Option.none)
          (some fv)

/- ## Concrete inputs used by the claim theorems -/

def emptyInventory : CPInventoryManager := { groups := [], hostOverrides := [] }

/-- A run context in which the collector finds no host running the service. -/
def noHostsCtx : ExternalCtx :=
  { hosts := [], propertyTable := [], userGroupResponse := ("all", []),
    jvmArgs := "", resolver := fun _ _ => [], skipProperties := [] }

/-- A triggered control-center TLS raw property map (https listener plus the
five SSL keys), with distinct keystore and truststore paths. -/
def ccTlsSample : RawProps :=
  [("confluent.controlcenter.rest.listeners", "https://c3:9021"),
   ("confluent.controlcenter.rest.ssl.truststore.location", "/ts/path"),
   ("confluent.controlcenter.rest.ssl.truststore.password", "tpass"),
   ("confluent.controlcenter.rest.ssl.keystore.location", "/ks/path"),
   ("confluent.controlcenter.rest.ssl.keystore.password", "kpass"),
   ("confluent.controlcenter.rest.ssl.key.password", "keyp")]

/-- A triggered zookeeper SSL raw property map, with the same store paths. -/
def zkSslSample : RawProps :=
  [("secureClientPort", "2182"),
   ("ssl.keyStore.location", "/ks/path"),
   ("ssl.keyStore.password", "kpass"),
   ("ssl.trustStore.location", "/ts/path"),
   ("ssl.trustStore.password", "tpass")]

/-- An alias resolver returning `ka` for the keystore path `/ks/path` and `ta`
for any other store. -/
def pathResolver (ka ta : List String) : Option String → Option String → List String :=
  fun _pass path => if path = some "/ks/path" then ka else ta

/- ## Helper lemmas for the properties-file characterization -/

theorem splitOnChar_ne_nil (c : Char) (l : List Char) : splitOnChar c l ≠ [] := by
  cases l with
  | nil => simp [splitOnChar]
  | cons x xs =>
    simp only [splitOnChar]
    rcases h : splitOnChar c xs with _ | ⟨hd, tl⟩
    · simp
    · by_cases hx : x = c <;> simp [hx]

theorem joinSep_splitOnChar (c : Char) (l : List Char) :
    joinSep c (splitOnChar c l) = l := by
  induction l with
  | nil => rfl
  | cons x xs ih =>
    simp only [splitOnChar]
    rcases h : splitOnChar c xs with _ | ⟨hd, tl⟩
    · exact absurd h (splitOnChar_ne_nil c xs)
    · rw [h] at ih
      dsimp only
      by_cases hx : x = c
      · subst hx
        rw [if_pos rfl]
        simpa [joinSep] using ih
      · rw [if_neg hx]
        cases tl with
        | nil => simpa [joinSep] using ih
        | cons z t =>
          simp only [joinSep] at ih ⊢
          simp [ih]

theorem headD_splitOnChar (c : Char) (l : List Char) :
    (splitOnChar c l).headD [] = l.takeWhile (fun x => !decide (x = c)) := by
  induction l with
  | nil => rfl
  | cons x xs ih =>
    simp only [splitOnChar]
    rcases h : splitOnChar c xs with _ | ⟨hd, tl⟩
    · exact absurd h (splitOnChar_ne_nil c xs)
    · rw [h] at ih
      simp only [List.headD_cons] at ih
      dsimp only
      by_cases hx : x = c
      · subst hx
        simp [List.takeWhile_cons]
      · simp [List.takeWhile_cons, hx, ih]

theorem joinSep_drop_splitOnChar (c : Char) (l : List Char) :
    joinSep c ((splitOnChar c l).drop 1) =
      (l.dropWhile (fun x => !decide (x = c))).drop 1 := by
  induction l with
  | nil => rfl
  | cons x xs ih =>
    simp only [splitOnChar]
    rcases h : splitOnChar c xs with _ | ⟨hd, tl⟩
    · exact absurd h (splitOnChar_ne_nil c xs)
    · dsimp only
      by_cases hx : x = c
      · subst hx
        rw [if_pos rfl]
        have h0 := joinSep_splitOnChar x xs
        rw [h] at h0
        simp [List.dropWhile_cons, h0]
      · rw [if_neg hx]
        rw [h] at ih
        simpa [List.dropWhile_cons, hx] using ih

theorem dictGet?_dictSet {α β : Type} [DecidableEq α] (m : List (α × β)) (k k' : α) (v : β) :
    dictGet? (dictSet m k v) k' = if k' = k then some v else dictGet? m k' := by
  induction m with
  | nil =>
    by_cases hk : k' = k <;> simp [dictSet, dictGet?, hk, Ne.symm]
  | cons p t ih =>
    by_cases hp : p.1 = k
    · rw [dictSet, if_pos hp]
      by_cases hk : k' = k
      · simp [dictGet?, hk]
      · have h2 : ¬(k = k') := fun e => hk e.symm
        have hp' : ¬(p.1 = k') := by rw [hp]; exact h2
        simp [dictGet?, hk, h2, hp']
    · rw [dictSet, if_neg hp]
      by_cases hk : k' = k
      · subst hk
        have hp' : ¬(p.1 = k') := hp
        simp [dictGet?, hp', ih]
      · by_cases hq : p.1 = k'
        · simp [dictGet?, hq, hk]
        · simp [dictGet?, hq, ih, hk]

theorem getLast?_filter_eq_find?_reverse {α : Type} (p : α → Bool) (l : List α) :
    (l.filter p).getLast? = l.reverse.find? p := by
  induction l with
  | nil => rfl
  | cons e t ih =>
    rw [List.filter_cons, List.reverse_cons, List.find?_append, ← ih]
    cases hp : p e
    · simp [hp]
    · simp only [hp, if_pos rfl]
      cases hl : (t.filter p).getLast? with
      | none =>
        have h2 : t.filter p = [] := by
          cases hf : t.filter p with
          | nil => rfl
          | cons q qs => rw [hf] at hl; simp [List.getLast?_concat] at hl
        simp [h2, hl, List.find?, hp]
      | some q =>
        cases hf : t.filter p with
        | nil => rw [hf] at hl; simp at hl
        | cons r rs =>
          rw [hf] at hl
          simp [List.getLast?_cons_cons, hl]

theorem dictGet?_foldl_dictSet {α β : Type} [DecidableEq α] (es : List (α × β))
    (m : List (α × β)) (k : α) :
    dictGet? (es.foldl (fun d p => dictSet d p.1 p.2) m) k =
      match es.reverse.find? (fun p => decide (p.1 = k)) with
      | some p => some p.2
      | Option.none => dictGet? m k := by
  induction es generalizing m with
  | nil => rfl
  | cons e t ih =>
    rw [List.foldl_cons, ih, List.reverse_cons, List.find?_append]
    cases hf : t.reverse.find? (fun p => decide (p.1 = k)) with
    | some q => rfl
    | none =>
      dsimp only [Option.orElse]
      rw [dictGet?_dictSet]
      by_cases he : e.1 = k
      · have hk : k = e.1 := he.symm
        rw [if_pos hk]
        simp [List.find?_cons, he]
      · have hk : ¬k = e.1 := fun h2 => he h2.symm
        rw [if_neg hk]
        simp [List.find?_cons, he]

theorem procLine_eq (sep cc : Char) (props : List (List Char × List Char))
    (line : List Char) :
    procLine sep cc props line =
      if eligibleLine cc (pyStrip line) then
        dictSet props (keyOfLine sep (pyStrip line)) (valueOfLine sep (pyStrip line))
      else props := by
  simp only [procLine, eligibleLine, keyOfLine, valueOfLine,
    headD_splitOnChar, joinSep_drop_splitOnChar]

theorem foldl_procLine_eq (sep cc : Char) (lines : List (List Char))
    (acc : List (List Char × List Char)) :
    lines.foldl (procLine sep cc) acc =
      (((lines.map pyStrip).filter (eligibleLine cc)).map
        (fun l => (keyOfLine sep l, valueOfLine sep l))).foldl
        (fun d p => dictSet d p.1 p.2) acc := by
  induction lines generalizing acc with
  | nil => rfl
  | cons line rest ih =>
    rw [List.foldl_cons, procLine_eq, List.map_cons, List.filter_cons]
    cases h : eligibleLine cc (pyStrip line)
    · simp [h, ih]
    · simp [h, ih]

/- ## Claim theorems -/

/-- Claim C1 (code_bug evaluation): on an empty host set the zookeeper
builder's `build_properties` does not abort cleanly — it logs and then
dereferences `hosts[0]`, raising `IndexError` — while the control-center
builder returns with the inventory unchanged, as the claim demands of every
builder. -/
theorem zookeeper_no_hosts_dereference :
  zkBuildProperties noHostsCtx emptyInventory = Except.error PyError.indexError ∧
  ccBuildProperties noHostsCtx emptyInventory = Except.ok emptyInventory :=
  ⟨rfl, rfl⟩

/-- Claim C2 (code_bug evaluation): running the zookeeper rule chain on a raw
map containing `ssl.clientAuth = 'need'` leaves the final mapped-key set
without `ssl.clientAuth`, although `_build_mtls_properties` read that key —
contradicting the claim that every key a rule reads is in
`mapped_service_properties` after the rule returns. -/
theorem zookeeper_mtls_read_key_unmapped :
  zkRunRules (fun _ _ => []) emptyInventory [("ssl.clientAuth", "need")] =
    Except.ok
      ({ groups := [("zookeeper", [("ssl_mutual_auth_enabled", PropValue.bool true)])],
         hostOverrides := [] },
       ["clientPort", "secureClientPort", "ssl.keyStore.location", "ssl.keyStore.password",
        "ssl.trustStore.location", "ssl.trustStore.password"]) ∧
  "ssl.clientAuth" ∉
      ["clientPort", "secureClientPort", "ssl.keyStore.location", "ssl.keyStore.password",
       "ssl.trustStore.location", "ssl.trustStore.password"] :=
  ⟨rfl, by decide⟩

/-- Claim C3 (code_bug evaluation): with their needed key absent from the raw
map, the control-center replication rule raises `TypeError` (`int(None)`) and
the control-center TLS rule raises `AttributeError` (`None.find`), instead of
returning the broadcast scope with an empty property set as the claim
states. -/
theorem control_center_rules_raise_on_absent_key :
  cc_build_control_center_internal_replication_property [] [] =
    Except.error PyError.typeError ∧
  cc_build_tls_properties (fun _ _ => []) [] [] = Except.error PyError.attributeError :=
  ⟨rfl, rfl⟩

/-- Claim C4 (code_bug evaluation): validation nulls out even the well-formed
version strings `7.0` and `7.0.1`, because `isinstance(version, int)` is
`False` for every component produced by `str.split` — contradicting the claim
that well-formed `major.minor[.patch]` strings are accepted and kept. -/
theorem from_version_validation_rejects_wellformed :
  validate_from_version (some "7.0") = Option.none ∧
  validate_from_version (some "7.0.1") = Option.none :=
  ⟨rfl, rfl⟩

/-- Claim C5: parsing listener `https://broker1:9021` yields protocol
`https`, hostname `broker1` and port `9021` (with the listeners key marked
mapped), and on `http://broker1:9021` the TLS rule emits no properties with
the broadcast scope. -/
theorem listener_parsing_examples :
  cc_build_service_protocol_port
      [("confluent.controlcenter.rest.listeners", "https://broker1:9021")] [] =
    Except.ok (("all",
      [("control_center_http_protocol", PropValue.str "https"),
       ("control_center_listener_hostname", PropValue.str "broker1"),
       ("control_center_port", PropValue.int 9021)]),
      ["confluent.controlcenter.rest.listeners"]) ∧
  cc_build_tls_properties (fun _ _ => [])
      [("confluent.controlcenter.rest.listeners", "http://broker1:9021")] [] =
    Except.ok (("all", []), []) :=
  ⟨rfl, rfl⟩

/-- Claim C6: whenever the first replication key parses as an integer `n`,
the replication rule emits
`control_center_default_internal_replication_factor = n` broadcast — computed
from the first key only, regardless of the other keys' values — and marks all
four replication keys mapped, without failing. -/
theorem replication_rule_first_key (m : RawProps) (v : String) (n : Int)
    (hv : dictGet? m "confluent.controlcenter.command.topic.replication" = some v)
    (hn : pyInt v = Except.ok n) :
  cc_build_control_center_internal_replication_property m [] =
    Except.ok (("all",
      [("control_center_default_internal_replication_factor", PropValue.int n)]),
      ["confluent.controlcenter.command.topic.replication",
       "confluent.controlcenter.internal.topics.replication",
       "confluent.metrics.topic.replication",
       "confluent.monitoring.interceptor.topic.replication"]) := by
  simp [cc_build_control_center_internal_replication_property, hv, pyIntOpt, hn, setAdd]

/-- Witness for C6: all four replication keys set to `"3"` yield the integer
`3` and all four keys mapped. -/
theorem replication_rule_first_key_check :
  cc_build_control_center_internal_replication_property
      [("confluent.controlcenter.command.topic.replication", "3"),
       ("confluent.controlcenter.internal.topics.replication", "3"),
       ("confluent.metrics.topic.replication", "3"),
       ("confluent.monitoring.interceptor.topic.replication", "3")] [] =
    Except.ok (("all",
      [("control_center_default_internal_replication_factor", PropValue.int 3)]),
      ["confluent.controlcenter.command.topic.replication",
       "confluent.controlcenter.internal.topics.replication",
       "confluent.metrics.topic.replication",
       "confluent.monitoring.interceptor.topic.replication"]) :=
  replication_rule_first_key _ "3" 3 rfl rfl

/-- Claim C7: for both triggered TLS rules (control-center and zookeeper), a
non-empty resolver list yields the list's first element as the alias property;
an empty keystore list leaves `ssl_keystore_alias` absent from the rule's
output; an empty truststore list leaves `ssl_truststore_ca_cert_alias` at its
empty-string sentinel. -/
theorem tls_alias_selection (ka ta : List String) :
  ∃ pd1 m1 pd2 m2,
    cc_build_tls_properties (pathResolver ka ta) ccTlsSample [] =
      Except.ok (("control_center", pd1), m1) ∧
    zk_build_ssl_properties (pathResolver ka ta) zkSslSample [] =
      Except.ok (("zookeeper", pd2), m2) ∧
    dictGet? pd1 "ssl_keystore_alias" = ka.head?.map PropValue.str ∧
    dictGet? pd1 "ssl_truststore_ca_cert_alias" = some (PropValue.str (ta.headD "")) ∧
    dictGet? pd2 "ssl_keystore_alias" = ka.head?.map PropValue.str ∧
    dictGet? pd2 "ssl_truststore_ca_cert_alias" = some (PropValue.str (ta.headD "")) := by
  cases ka <;> cases ta <;> exact ⟨_, _, _, _, rfl, rfl, rfl, rfl, rfl, rfl⟩

/-- Claim C8: whenever the governing authentication-method key is absent, the
RBAC rule deterministically emits `{rbac_enabled: false}` scoped to the
`control_center` group. -/
theorem rbac_governing_key_absent_default (m : RawProps) (mapped : List String)
    (h : dictGet? m "confluent.controlcenter.rest.authentication.method" = Option.none) :
  cc_build_rbac_properties m mapped =
    Except.ok (("control_center", [("rbac_enabled", PropValue.bool false)]), mapped) := by
  simp [cc_build_rbac_properties, h]

/-- Witness for C8: the empty raw map (governing key absent) yields the
negative default. -/
theorem rbac_governing_key_absent_default_check :
  cc_build_rbac_properties [] [] =
    Except.ok (("control_center", [("rbac_enabled", PropValue.bool false)]), []) :=
  rbac_governing_key_absent_default [] [] rfl

/-- Claim C9: every empty-bodied version-specific builder subclass (zookeeper
and control-center, versions 60 through 72) produces exactly the base
builder's result on every run context and inventory. -/
theorem version_subclasses_match_base (ctx : ExternalCtx) (inv : CPInventoryManager) :
  ZookeeperServicePropertyBaseBuilder60.build_properties ctx inv = zkBuildProperties ctx inv ∧
  ZookeeperServicePropertyBaseBuilder61.build_properties ctx inv = zkBuildProperties ctx inv ∧
  ZookeeperServicePropertyBaseBuilder62.build_properties ctx inv = zkBuildProperties ctx inv ∧
  ZookeeperServicePropertyBaseBuilder70.build_properties ctx inv = zkBuildProperties ctx inv ∧
  ZookeeperServicePropertyBaseBuilder71.build_properties ctx inv = zkBuildProperties ctx inv ∧
  ZookeeperServicePropertyBaseBuilder72.build_properties ctx inv = zkBuildProperties ctx inv ∧
  ControlCenterServicePropertyBaseBuilder60.build_properties ctx inv = ccBuildProperties ctx inv ∧
  ControlCenterServicePropertyBaseBuilder61.build_properties ctx inv = ccBuildProperties ctx inv ∧
  ControlCenterServicePropertyBaseBuilder62.build_properties ctx inv = ccBuildProperties ctx inv ∧
  ControlCenterServicePropertyBaseBuilder70.build_properties ctx inv = ccBuildProperties ctx inv ∧
  ControlCenterServicePropertyBaseBuilder71.build_properties ctx inv = ccBuildProperties ctx inv ∧
  ControlCenterServicePropertyBaseBuilder72.build_properties ctx inv = ccBuildProperties ctx inv :=
  ⟨rfl, rfl, rfl, rfl, rfl, rfl, rfl, rfl, rfl, rfl, rfl, rfl⟩

/-- Claim C10: for every input and every key, the value
`load_properties_to_dict` associates to the key is the value of the last
processed line carrying that key, where processed lines exclude empty lines
and comment lines, the key of a line is the text before the first separator
(stripped) and its value is the remainder after the first separator (which may
itself contain the separator), stripped of whitespace and surrounding double
quotes; absent any such line, the key is unbound. -/
theorem load_properties_to_dict_characterization (content : List Char) (k : List Char) :
    dictGet? (load_properties_to_dict content) k =
      ((claimedEntries content '=' '#').filter
        (fun p => decide (p.1 = k))).getLast?.map (fun p => p.2) := by
  rw [load_properties_to_dict, claimedEntries, foldl_procLine_eq, dictGet?_foldl_dictSet,
    ← getLast?_filter_eq_find?_reverse]
  cases ((((splitOnChar '\n' content).map pyStrip).filter (eligibleLine '#')).map
      (fun l => (keyOfLine '=' l, valueOfLine '=' l))).filter
      (fun p => decide (p.1 = k)) |>.getLast? with
  | none => rfl
  | some q => rfl
